import Mathlib

/-!
Verification development for the fraud-detection workflow of the
azure-trust-agents repository.

The Python sources are shallowly embedded as executable Lean definitions:

* string matching (Python `needle in haystack` on lowercased text) becomes
  `containsStr` over `List Char`;
* the rule-based scorer, level/recommendation derivations and the audit
  derivations of the three challenge variants become pure functions over
  `Int`/`Rat` scores and `List String` factor sets;
* the challenge-3 workflow graph (customer data -> risk analyzer ->
  {compliance report, fraud alert}) becomes explicit message passing where
  `Option` models whether an executor calls `ctx.send_message`, and the
  external AI / MCP collaborators become `Except String String` oracles.

Monetary amounts, device-trust values and parsed risk scores are modelled as
rationals (`Rat`), which is faithful to the float arithmetic actually
performed by the sources: only comparisons, additions, `max`/`min` and
division by constants occur.
-/

namespace AzureTrustAgents

/-! ## String primitives

Python string operations used by the sources: substring test (`in`),
`str.lower()` and `str.upper()` (the sources only apply them to ASCII
narratives, where `Char.toLower`/`Char.toUpper` coincide with Python). -/

/-- Python `needle in hay`: `needle` occurs as a contiguous substring. -/
def containsStr (hay needle : String) : Bool :=
  decide (needle.data <:+: hay.data)

/-- Python `any(phrase in hay for phrase in needles)`. -/
def anyContains (hay : String) (needles : List String) : Bool :=
  needles.any (fun n => containsStr hay n)

/-- Python `str.lower()` (structural recursion, kernel-computable). -/
def lowerStr (s : String) : String := String.mk (s.data.map Char.toLower)

/-- Python `str.upper()` (structural recursion, kernel-computable). -/
def upperStr (s : String) : String := String.mk (s.data.map Char.toUpper)

/-- A conditional one-element list: translation of a Python
`if cond: factors.append(tag)` step, so that the factor list is the
concatenation of its conditional blocks. -/
def tagIf (c : Bool) (tag : String) : List String := if c then [tag] else []

theorem mem_tagIf {x tag : String} {c : Bool} :
    x ∈ tagIf c tag ↔ c = true ∧ x = tag := by
  cases c <;> simp [tagIf]

theorem containsStr_trans {t a b : String} (h1 : containsStr a b = true)
    (h2 : containsStr t a = true) : containsStr t b = true := by
  unfold containsStr at *
  exact decide_eq_true (List.IsInfix.trans (of_decide_eq_true h1) (of_decide_eq_true h2))

theorem anyContains_of_mem {t k : String} {ks : List String} (hk : k ∈ ks)
    (h : containsStr t k = true) : anyContains t ks = true := by
  unfold anyContains
  rw [List.any_eq_true]
  exact ⟨k, hk, h⟩

/-! ## Challenge-1 rule engine
`src/challenge-1/workflow/risk_analyzer_executor.py` -/

/-- `RISK_CONFIG["high_risk_countries"]` (risk_analyzer_executor.py line 37). -/
def high_risk_countries : List String := ["NG", "IR", "RU", "KP", "SY", "AF", "MM"]

/-- `RISK_CONFIG["sanctions_countries"]` (risk_analyzer_executor.py line 41). -/
def sanctions_countries : List String := ["IR", "KP", "SY", "RU"]

/-- The fields of the `transaction` dict read by `calculate_base_risk_score`. -/
structure TransactionIn where
  amount : ℚ
  destination_country : String
deriving DecidableEq

/-- The fields of the `customer` dict read by `calculate_base_risk_score`
(the function assigns `customer_country` but never uses it). -/
structure CustomerIn where
  country : String
deriving DecidableEq

/-- The fields of the `risk_indicators` dict read by `calculate_base_risk_score`. -/
structure RiskIndicators where
  cross_border_transaction : Bool
  amount_vs_average : ℚ
  account_age_days : ℤ
  device_trust_score : ℚ
  past_fraud_flags : ℕ
deriving DecidableEq

/-- `calculate_base_risk_score` (risk_analyzer_executor.py lines 176-237):
each satisfied rule adds its weight to the score and appends its factor tag;
the final score is clamped into `[0, 100]`.  The sequence of conditional
`+=`/`append` statements is flattened into a sum of conditional weights and a
concatenation of conditional tags, preserving order. -/
def calculate_base_risk_score (transaction : TransactionIn) (_customer : CustomerIn)
    (risk_indicators : RiskIndicators) : ℤ × List String :=
  let c1 := high_risk_countries.contains transaction.destination_country
  let c2 := sanctions_countries.contains transaction.destination_country
  let c3 := risk_indicators.cross_border_transaction
  let c4 := decide ((10000 : ℚ) < transaction.amount)
  let c5 := decide ((5 : ℚ) < risk_indicators.amount_vs_average)
  let c6 := decide (risk_indicators.account_age_days < 30)
  let c7 := decide (risk_indicators.device_trust_score < 1/2)
  let c8 := decide (0 < risk_indicators.past_fraud_flags)
  let score : ℤ :=
    (if c1 then 30 else 0) + (if c2 then 40 else 0) + (if c3 then 10 else 0) +
    (if c4 then 20 else 0) + (if c5 then 25 else 0) + (if c6 then 15 else 0) +
    (if c7 then 20 else 0) + (if c8 then 30 else 0)
  let factors :=
    tagIf c1 "HIGH_RISK_DESTINATION_COUNTRY" ++ tagIf c2 "SANCTIONS_DESTINATION_COUNTRY" ++
    tagIf c3 "CROSS_BORDER_TRANSACTION" ++ tagIf c4 "HIGH_TRANSACTION_AMOUNT" ++
    tagIf c5 "UNUSUAL_AMOUNT_PATTERN" ++ tagIf c6 "NEW_ACCOUNT_RISK" ++
    tagIf c7 "LOW_DEVICE_TRUST" ++ tagIf c8 "PREVIOUS_FRAUD_HISTORY"
  (max 0 (min score 100), factors)

/-- `determine_risk_level` (risk_analyzer_executor.py lines 296-303). -/
def determine_risk_level (risk_score : ℤ) : String :=
  if 70 ≤ risk_score then "HIGH"
  else if 40 ≤ risk_score then "MEDIUM"
  else "LOW"

/-- Per-finding increment of `adjust_risk_score_with_regulatory_findings`
(risk_analyzer_executor.py lines 280-286). -/
def regulatory_adjustment (finding : String) : ℤ :=
  let f := lowerStr finding
  if containsStr f "sanctions" || containsStr f "ofac" then 15
  else if containsStr f "enhanced due diligence" then 10
  else if containsStr f "suspicious activity" then 12
  else 0

/-- `adjust_risk_score_with_regulatory_findings` (risk_analyzer_executor.py
lines 271-293): adds the per-finding increments and clamps into `[0, 100]`. -/
def adjust_risk_score_with_regulatory_findings (base_score : ℤ)
    (regulatory_findings : List String) : ℤ :=
  max 0 (min (regulatory_findings.foldl (fun s f => s + regulatory_adjustment f) base_score) 100)

/-- `generate_recommendations` (risk_analyzer_executor.py lines 381-426):
the level-keyed phrase list comes first, then conditional factor-specific
and finding-specific phrases are appended. -/
def generate_recommendations (_risk_score : ℤ) (risk_level : String)
    (risk_factors : List String) (regulatory_findings : List String) : List String :=
  (if risk_level = "HIGH" then
    ["BLOCK TRANSACTION - Enhanced due diligence required",
     "Conduct immediate customer verification",
     "Review transaction against internal risk policies",
     "Consider filing suspicious activity report (SAR)"]
   else if risk_level = "MEDIUM" then
    ["HOLD TRANSACTION - Additional verification required",
     "Perform enhanced customer due diligence",
     "Monitor future transactions from this customer",
     "Document risk assessment findings"]
   else
    ["APPROVE TRANSACTION - Standard monitoring sufficient",
     "Continue regular transaction monitoring",
     "No additional action required at this time"])
  ++ tagIf (risk_factors.contains "SANCTIONS_DESTINATION_COUNTRY")
       "Verify transaction against OFAC sanctions lists"
  -- the source phrase below contains a possessive apostrophe, omitted here
  ++ tagIf (risk_factors.contains "PREVIOUS_FRAUD_HISTORY")
       "Review customer fraud history and risk profile"
  ++ tagIf (regulatory_findings.any (fun f => containsStr f "BSA" || containsStr f "CTR"))
       "Ensure compliance with BSA reporting requirements"

/-- The leading, decision-carrying phrase of `generate_recommendations`:
the first entry of the returned list (the BLOCK / HOLD / APPROVE phrase). -/
def recommendation_head (risk_score : ℤ) (risk_factors regulatory_findings : List String) :
    String :=
  (generate_recommendations risk_score (determine_risk_level risk_score)
    risk_factors regulatory_findings).headD ""

/-! ## Claim C1 -/

/-- Claim C1, counterexample: the claim states `level(s) = HIGH iff s >= 75`,
but `determine_risk_level` uses the boundary 70, so at score 70 the code
returns HIGH although `75 <= 70` is false. -/
theorem C1_counterexample :
    ¬ ((determine_risk_level 70 = "HIGH") ↔ (75 ≤ (70 : ℤ))) := by
  decide

/-- Claim C1 (corrected): the risk level and the leading recommendation
phrase are derived from the same threshold boundaries, which are 70 and 40
(not 75 and 45): `level(s) = HIGH` iff `s >= 70` iff the recommendation list
starts with the BLOCK phrase; `level(s) = MEDIUM` iff `40 <= s < 70` iff it
starts with the HOLD phrase; otherwise `level(s) = LOW` and it starts with
the APPROVE phrase.  In particular level and recommendation can never
disagree, and `s = 75` still yields HIGH plus BLOCK. -/
theorem C1_level_recommendation_agree (s : ℤ) (fs gs : List String) :
    ((determine_risk_level s = "HIGH") ↔ 70 ≤ s)
    ∧ ((determine_risk_level s = "MEDIUM") ↔ (40 ≤ s ∧ s < 70))
    ∧ ((determine_risk_level s = "LOW") ↔ s < 40)
    ∧ ((recommendation_head s fs gs =
          "BLOCK TRANSACTION - Enhanced due diligence required") ↔ 70 ≤ s)
    ∧ ((recommendation_head s fs gs =
          "HOLD TRANSACTION - Additional verification required") ↔ (40 ≤ s ∧ s < 70))
    ∧ ((recommendation_head s fs gs =
          "APPROVE TRANSACTION - Standard monitoring sufficient") ↔ s < 40) := by
  by_cases h70 : 70 ≤ s
  · simp [determine_risk_level, recommendation_head, generate_recommendations, h70]
    omega
  · by_cases h40 : 40 ≤ s
    · simp [determine_risk_level, recommendation_head, generate_recommendations, h70, h40]
      omega
    · simp [determine_risk_level, recommendation_head, generate_recommendations, h70, h40]
      omega

/-- Claim C1, witness: evaluating the corrected statement at score 75 shows
HIGH together with the BLOCK recommendation. -/
theorem C1_witness :
    determine_risk_level 75 = "HIGH"
    ∧ recommendation_head 75 [] [] = "BLOCK TRANSACTION - Enhanced due diligence required" :=
  ⟨(C1_level_recommendation_agree 75 [] []).1.mpr (by decide),
   (C1_level_recommendation_agree 75 [] []).2.2.2.1.mpr (by decide)⟩

/-! ## Claim C8 -/

/-- Scenario A transaction: amount 15000 USD to destination "IR". -/
def scenarioA_transaction : TransactionIn :=
  { amount := 15000, destination_country := "IR" }

/-- Scenario A customer (country field is never used by the scorer). -/
def scenarioA_customer : CustomerIn := { country := "US" }

/-- Scenario A risk indicators: account 15 days old, device trust 0.3,
past fraud on record (`past_fraud_flags = 1`); the cross-border flag and the
amount-to-average ratio are not fixed by the scenario and are given the
neutral values `false` and `1`, so the proved score bound does not rely on
them. -/
def scenarioA_indicators : RiskIndicators :=
  { cross_border_transaction := false
    amount_vs_average := 1
    account_age_days := 15
    device_trust_score := 3/10
    past_fraud_flags := 1 }

/-- Claim C8 (confirmed): on Scenario A with the reasoning service
unavailable (no regulatory findings), the rule engine adds the sanctions,
high-risk-country, high-amount, new-account, low-trust and past-fraud
weights (30+40+20+15+20+30 = 155, clamped to 100), so the base score is 100
which is at least 90, the unchanged adjusted score stays 100, the derived
level is HIGH and the leading recommendation is the BLOCK phrase. -/
theorem C8_scenarioA_high_block :
    (calculate_base_risk_score scenarioA_transaction scenarioA_customer scenarioA_indicators).1
      = 100
    ∧ 90 ≤ (calculate_base_risk_score scenarioA_transaction scenarioA_customer
        scenarioA_indicators).1
    ∧ (calculate_base_risk_score scenarioA_transaction scenarioA_customer
        scenarioA_indicators).2
      = ["HIGH_RISK_DESTINATION_COUNTRY", "SANCTIONS_DESTINATION_COUNTRY",
         "HIGH_TRANSACTION_AMOUNT", "NEW_ACCOUNT_RISK", "LOW_DEVICE_TRUST",
         "PREVIOUS_FRAUD_HISTORY"]
    ∧ adjust_risk_score_with_regulatory_findings 100 [] = 100
    ∧ determine_risk_level 100 = "HIGH"
    ∧ recommendation_head 100
        ["HIGH_RISK_DESTINATION_COUNTRY", "SANCTIONS_DESTINATION_COUNTRY",
         "HIGH_TRANSACTION_AMOUNT", "NEW_ACCOUNT_RISK", "LOW_DEVICE_TRUST",
         "PREVIOUS_FRAUD_HISTORY"] []
        = "BLOCK TRANSACTION - Enhanced due diligence required" := by
  have hbase : calculate_base_risk_score scenarioA_transaction scenarioA_customer
      scenarioA_indicators
      = (100, ["HIGH_RISK_DESTINATION_COUNTRY", "SANCTIONS_DESTINATION_COUNTRY",
               "HIGH_TRANSACTION_AMOUNT", "NEW_ACCOUNT_RISK", "LOW_DEVICE_TRUST",
               "PREVIOUS_FRAUD_HISTORY"]) := by
    unfold calculate_base_risk_score scenarioA_transaction scenarioA_indicators
    have hdt : ((3 : ℚ)/10 < 1/2) := by norm_num
    simp [tagIf, high_risk_countries, sanctions_countries, hdt]
    norm_num
  refine ⟨by rw [hbase], by rw [hbase]; decide, by rw [hbase], ?_, by decide, ?_⟩
  · unfold adjust_risk_score_with_regulatory_findings
    decide
  · unfold recommendation_head generate_recommendations determine_risk_level
    decide

/-! ## Challenge-3 narrative parser
`src/challenge-3/workflow_observability.py`, `parse_risk_analysis_result`
(an identical copy of the factor extraction appears in
`src/challenge-2/agents/sequential_workflow_chal2.py`).  The Python function
lowercases the narrative once (`text_lower = risk_analysis_text.lower()`)
and tests substring containment against that lowered text. -/

/-- Trigger phrases for `HIGH_RISK_JURISDICTION` (workflow_observability.py line 246). -/
def hrj_keywords : List String := ["high-risk country", "high risk country"]

/-- Negating phrases for `HIGH_RISK_JURISDICTION` (line 246). -/
def hrj_negations : List String := ["not in", "no high-risk", "not high-risk", "low-risk"]

/-- Trigger phrases for `UNUSUAL_AMOUNT` (line 250). -/
def amount_keywords : List String := ["large amount", "high amount"]

/-- Negating phrases for `UNUSUAL_AMOUNT` (line 250). -/
def amount_negations : List String := ["below", "under", "not large", "not high"]

/-- Trigger phrases for `SUSPICIOUS_PATTERN` (line 254). -/
def suspicious_keywords : List String := ["suspicious"]

/-- Negating phrases for `SUSPICIOUS_PATTERN` (line 254). -/
def suspicious_negations : List String := ["no suspicious", "not suspicious", "no triggering"]

/-- Confirming phrases required (besides the substring `sanction`) for
`SANCTIONS_CONCERN` (line 258). -/
def sanctions_confirmations : List String :=
  ["sanctions concern", "sanctions flag", "sanctions match", "sanctions risk"]

/-- Negating phrases for `SANCTIONS_CONCERN` (line 258). -/
def sanctions_negations : List String := ["no sanctions", "sanctions check clear", "no sanctions flag"]

/-- Trigger phrases for `FREQUENCY_ANOMALY` (line 262). -/
def frequency_keywords : List String := ["frequent", "unusual frequency"]

/-- Negating phrases for `FREQUENCY_ANOMALY` (line 262). -/
def frequency_negations : List String := ["not frequent", "normal frequency"]

/-- Line 246 guard, on the lowered text. -/
def hrj_cond (t : String) : Bool :=
  anyContains t hrj_keywords && !(anyContains t hrj_negations)

/-- Line 250 guard, on the lowered text. -/
def amount_cond (t : String) : Bool :=
  anyContains t amount_keywords && !(anyContains t amount_negations)

/-- Line 254 guard, on the lowered text. -/
def suspicious_cond (t : String) : Bool :=
  containsStr t "suspicious" && !(anyContains t suspicious_negations)

/-- Line 258 guard, on the lowered text: the substring `sanction`, plus one
of the confirming phrases, and none of the negating phrases. -/
def sanctions_cond (t : String) : Bool :=
  containsStr t "sanction" && anyContains t sanctions_confirmations
    && !(anyContains t sanctions_negations)

/-- Line 262 guard, on the lowered text. -/
def frequency_cond (t : String) : Bool :=
  anyContains t frequency_keywords && !(anyContains t frequency_negations)

/-- The risk-factor extraction of `parse_risk_analysis_result`
(workflow_observability.py lines 242-265): the five conditional appends,
in source order, applied to the lowered narrative. -/
def parse_risk_factors_obs (risk_analysis_text : String) : List String :=
  let t := lowerStr risk_analysis_text
  tagIf (hrj_cond t) "HIGH_RISK_JURISDICTION"
  ++ tagIf (amount_cond t) "UNUSUAL_AMOUNT"
  ++ tagIf (suspicious_cond t) "SUSPICIOUS_PATTERN"
  ++ tagIf (sanctions_cond t) "SANCTIONS_CONCERN"
  ++ tagIf (frequency_cond t) "FREQUENCY_ANOMALY"

theorem mem_parse_risk_factors_obs {x text : String} :
    x ∈ parse_risk_factors_obs text ↔
      (hrj_cond (lowerStr text) = true ∧ x = "HIGH_RISK_JURISDICTION")
      ∨ (amount_cond (lowerStr text) = true ∧ x = "UNUSUAL_AMOUNT")
      ∨ (suspicious_cond (lowerStr text) = true ∧ x = "SUSPICIOUS_PATTERN")
      ∨ (sanctions_cond (lowerStr text) = true ∧ x = "SANCTIONS_CONCERN")
      ∨ (frequency_cond (lowerStr text) = true ∧ x = "FREQUENCY_ANOMALY") := by
  simp [parse_risk_factors_obs, mem_tagIf, List.mem_append, or_assoc]

/-- The factor extraction of the *other* cited parser,
`parse_risk_analysis_result` of
`src/challenge-1/orchestration/tools/compliance_audit_tools.py`
(lines 53-66): plain keyword presence on the lowered text, with no negation
handling at all. -/
def parse_risk_factors_tools (risk_analysis_text : String) : List String :=
  let t := lowerStr risk_analysis_text
  tagIf (anyContains t ["high-risk country", "high risk country"]) "HIGH_RISK_JURISDICTION"
  ++ tagIf (anyContains t ["large amount", "high amount"]) "UNUSUAL_AMOUNT"
  ++ tagIf (containsStr t "suspicious") "SUSPICIOUS_PATTERN"
  ++ tagIf (containsStr t "sanction") "SANCTIONS_CONCERN"
  ++ tagIf (anyContains t ["frequent", "unusual frequency"]) "FREQUENCY_ANOMALY"

/-! ## Claim C2 -/

/-- Claim C2, counterexample: the claim fails in both cited parsers.  In the
challenge-3 parser the narrative "sanction" contains the configured
sanctions keyword and none of the configured negating phrases, yet
`SANCTIONS_CONCERN` is not emitted (the tag additionally requires a
confirming phrase).  In the challenge-1 tools parser the narrative
"no sanctions" contains both the keyword and the negating phrase, yet the
tag *is* emitted (that parser performs no negation check). -/
theorem C2_counterexample :
    (containsStr (lowerStr "sanction") "sanction" = true
      ∧ anyContains (lowerStr "sanction") sanctions_negations = false
      ∧ "SANCTIONS_CONCERN" ∉ parse_risk_factors_obs "sanction")
    ∧ (containsStr (lowerStr "no sanctions") "sanction" = true
      ∧ containsStr (lowerStr "no sanctions") "no sanctions" = true
      ∧ "SANCTIONS_CONCERN" ∈ parse_risk_factors_tools "no sanctions") := by
  decide

/-- Claim C2 (corrected): for every factor the negation property holds,
provided the sanctions keywords are read as the confirming phrases the code
requires ("sanctions concern" / "sanctions flag" / "sanctions match" /
"sanctions risk") rather than the bare substring "sanction": for each factor
and each configured keyword occurring in the (lowercased) narrative, the tag
is emitted when no configured negating phrase occurs, and is not emitted
when one does. -/
theorem C2_negation_aware_factors (text : String) :
    (∀ k ∈ hrj_keywords, containsStr (lowerStr text) k = true →
      (anyContains (lowerStr text) hrj_negations = false →
        "HIGH_RISK_JURISDICTION" ∈ parse_risk_factors_obs text)
      ∧ (anyContains (lowerStr text) hrj_negations = true →
        "HIGH_RISK_JURISDICTION" ∉ parse_risk_factors_obs text))
    ∧ (∀ k ∈ amount_keywords, containsStr (lowerStr text) k = true →
      (anyContains (lowerStr text) amount_negations = false →
        "UNUSUAL_AMOUNT" ∈ parse_risk_factors_obs text)
      ∧ (anyContains (lowerStr text) amount_negations = true →
        "UNUSUAL_AMOUNT" ∉ parse_risk_factors_obs text))
    ∧ (∀ k ∈ suspicious_keywords, containsStr (lowerStr text) k = true →
      (anyContains (lowerStr text) suspicious_negations = false →
        "SUSPICIOUS_PATTERN" ∈ parse_risk_factors_obs text)
      ∧ (anyContains (lowerStr text) suspicious_negations = true →
        "SUSPICIOUS_PATTERN" ∉ parse_risk_factors_obs text))
    ∧ (∀ k ∈ sanctions_confirmations, containsStr (lowerStr text) k = true →
      (anyContains (lowerStr text) sanctions_negations = false →
        "SANCTIONS_CONCERN" ∈ parse_risk_factors_obs text)
      ∧ (anyContains (lowerStr text) sanctions_negations = true →
        "SANCTIONS_CONCERN" ∉ parse_risk_factors_obs text))
    ∧ (∀ k ∈ frequency_keywords, containsStr (lowerStr text) k = true →
      (anyContains (lowerStr text) frequency_negations = false →
        "FREQUENCY_ANOMALY" ∈ parse_risk_factors_obs text)
      ∧ (anyContains (lowerStr text) frequency_negations = true →
        "FREQUENCY_ANOMALY" ∉ parse_risk_factors_obs text)) := by
  refine ⟨?_, ?_, ?_, ?_, ?_⟩
  · intro k hk hcont
    constructor
    · intro hneg
      rw [mem_parse_risk_factors_obs]
      exact Or.inl ⟨by unfold hrj_cond; rw [anyContains_of_mem hk hcont, hneg]; rfl, rfl⟩
    · intro hneg hmem
      rw [mem_parse_risk_factors_obs] at hmem
      rcases hmem with ⟨hc, hx⟩ | ⟨_, hx⟩ | ⟨_, hx⟩ | ⟨_, hx⟩ | ⟨_, hx⟩
      · unfold hrj_cond at hc; rw [hneg] at hc; simp at hc
      all_goals exact absurd hx (by decide)
  · intro k hk hcont
    constructor
    · intro hneg
      rw [mem_parse_risk_factors_obs]
      exact Or.inr (Or.inl
        ⟨by unfold amount_cond; rw [anyContains_of_mem hk hcont, hneg]; rfl, rfl⟩)
    · intro hneg hmem
      rw [mem_parse_risk_factors_obs] at hmem
      rcases hmem with ⟨_, hx⟩ | ⟨hc, hx⟩ | ⟨_, hx⟩ | ⟨_, hx⟩ | ⟨_, hx⟩
      · exact absurd hx (by decide)
      · unfold amount_cond at hc; rw [hneg] at hc; simp at hc
      all_goals exact absurd hx (by decide)
  · intro k hk hcont
    have hk1 : containsStr (lowerStr text) "suspicious" = true := by
      fin_cases hk
      exact hcont
    constructor
    · intro hneg
      rw [mem_parse_risk_factors_obs]
      exact Or.inr (Or.inr (Or.inl
        ⟨by unfold suspicious_cond; rw [hk1, hneg]; rfl, rfl⟩))
    · intro hneg hmem
      rw [mem_parse_risk_factors_obs] at hmem
      rcases hmem with ⟨_, hx⟩ | ⟨_, hx⟩ | ⟨hc, hx⟩ | ⟨_, hx⟩ | ⟨_, hx⟩
      · exact absurd hx (by decide)
      · exact absurd hx (by decide)
      · unfold suspicious_cond at hc; rw [hneg] at hc; simp at hc
      all_goals exact absurd hx (by decide)
  · intro k hk hcont
    have hsan : containsStr (lowerStr text) "sanction" = true := by
      fin_cases hk <;> exact containsStr_trans (by decide) hcont
    constructor
    · intro hneg
      rw [mem_parse_risk_factors_obs]
      exact Or.inr (Or.inr (Or.inr (Or.inl
        ⟨by unfold sanctions_cond; rw [hsan, anyContains_of_mem hk hcont, hneg]; rfl, rfl⟩)))
    · intro hneg hmem
      rw [mem_parse_risk_factors_obs] at hmem
      rcases hmem with ⟨_, hx⟩ | ⟨_, hx⟩ | ⟨_, hx⟩ | ⟨hc, hx⟩ | ⟨_, hx⟩
      · exact absurd hx (by decide)
      · exact absurd hx (by decide)
      · exact absurd hx (by decide)
      · unfold sanctions_cond at hc; rw [hneg] at hc; simp at hc
      · exact absurd hx (by decide)
  · intro k hk hcont
    constructor
    · intro hneg
      rw [mem_parse_risk_factors_obs]
      exact Or.inr (Or.inr (Or.inr (Or.inr
        ⟨by unfold frequency_cond; rw [anyContains_of_mem hk hcont, hneg]; rfl, rfl⟩)))
    · intro hneg hmem
      rw [mem_parse_risk_factors_obs] at hmem
      rcases hmem with ⟨_, hx⟩ | ⟨_, hx⟩ | ⟨_, hx⟩ | ⟨_, hx⟩ | ⟨hc, hx⟩
      · exact absurd hx (by decide)
      · exact absurd hx (by decide)
      · exact absurd hx (by decide)
      · exact absurd hx (by decide)
      · unfold frequency_cond at hc; rw [hneg] at hc; simp at hc

/-- Claim C2, witness: the corrected property instantiated on two concrete
narratives exercises both directions for the sanctions factor. -/
theorem C2_witness :
    "SANCTIONS_CONCERN" ∈ parse_risk_factors_obs "sanctions risk detected"
    ∧ "SANCTIONS_CONCERN" ∉ parse_risk_factors_obs "no sanctions risk here" :=
  ⟨((C2_negation_aware_factors "sanctions risk detected").2.2.2.1 "sanctions risk"
      (by decide) (by decide)).1 (by decide),
   ((C2_negation_aware_factors "no sanctions risk here").2.2.2.1 "sanctions risk"
      (by decide) (by decide)).2 (by decide)⟩

/-! ## Challenge-3 fallback scoring
The branch of `parse_risk_analysis_result` (workflow_observability.py lines
190-228) taken when the narrative carries no explicit "risk score: N"
pattern: a keyword-driven accumulation, then the recommendation-phrase
adjustment, then the clamp into `[10, 100]`. -/

/-- The keyword accumulation of the fallback score (lines 190-214): baseline
20, plus the country / amount / suspicion / account / fraud-history
increments, each a conditional `+=` on the lowered narrative.  The string
"low.*trust" is the literal substring tested by the source. -/
def fallback_raw_obs (risk_analysis_text : String) : ℚ :=
  let t := lowerStr risk_analysis_text
  (20 : ℚ)
  + (if anyContains t ["russia", "russian", "iran", "iranian", "north korea", "syria", "yemen"]
      then 40
     else if anyContains t ["high-risk country", "high risk country"] then 35
     else if containsStr t "sanctions"
          && !(anyContains t ["no sanctions", "sanctions check clear"]) then 45
     else 0)
  + (if anyContains t ["large amount", "high amount"]
        && !(anyContains t ["below", "under", "not large"]) then 15 else 0)
  + (if containsStr t "suspicious"
        && !(anyContains t ["no suspicious", "not suspicious", "no triggering"]) then 20 else 0)
  + (if containsStr t "new account" || containsStr t "low.*trust" then 10 else 0)
  + (if containsStr t "past fraud" || containsStr t "fraud history" then 25 else 0)

/-- The final recommendation-phrase adjustment (lines 216-224): an
`if`/`elif` chain applying `max` floors for "block"/"reject",
non-negated "high risk" and "medium risk", and a `min` ceiling for
"low risk"/"approve". -/
def recommendation_adjust_obs (risk_analysis_text : String) (s : ℚ) : ℚ :=
  let t := lowerStr risk_analysis_text
  if containsStr t "block" || containsStr t "reject" then max s 75
  else if containsStr t "high risk"
       && !(anyContains t ["not high risk", "no high risk"]) then max s 65
  else if containsStr t "medium risk" then max s 45
  else if containsStr t "low risk" || containsStr t "approve" then min s 30
  else s

/-- The complete fallback score (line 227): the adjusted accumulation
clamped by `max(10.0, min(100.0, score))`. -/
def fallback_score_obs (risk_analysis_text : String) : ℚ :=
  max 10 (min 100 (recommendation_adjust_obs risk_analysis_text (fallback_raw_obs risk_analysis_text)))

/-! ## Claim C9 -/

/-- Claim C9, counterexample: on the narrative "approve block" the computed
accumulation is 20 and the text contains the ceiling phrase "approve", yet
the fallback score is 75: the ceiling branch sits behind the floor branch in
the `elif` chain, so an approve phrase neither caps the score at the low
ceiling nor leaves a lower computed score unraised, refuting the claim as
stated. -/
theorem C9_counterexample :
    containsStr (lowerStr "approve block") "approve" = true
    ∧ fallback_raw_obs "approve block" = 20
    ∧ fallback_score_obs "approve block" = 75
    ∧ ¬ (fallback_score_obs "approve block" ≤ 30) := by
  have hraw : fallback_raw_obs "approve block" = 20 := by
    unfold fallback_raw_obs
    simp [(by decide : anyContains (lowerStr "approve block")
        ["russia", "russian", "iran", "iranian", "north korea", "syria", "yemen"] = false),
      (by decide : anyContains (lowerStr "approve block")
        ["high-risk country", "high risk country"] = false),
      (by decide : containsStr (lowerStr "approve block") "sanctions" = false),
      (by decide : anyContains (lowerStr "approve block") ["large amount", "high amount"] = false),
      (by decide : containsStr (lowerStr "approve block") "suspicious" = false),
      (by decide : containsStr (lowerStr "approve block") "new account" = false),
      (by decide : containsStr (lowerStr "approve block") "low.*trust" = false),
      (by decide : containsStr (lowerStr "approve block") "past fraud" = false),
      (by decide : containsStr (lowerStr "approve block") "fraud history" = false)]
  have hscore : fallback_score_obs "approve block" = 75 := by
    unfold fallback_score_obs recommendation_adjust_obs
    rw [hraw]
    simp [(by decide : containsStr (lowerStr "approve block") "block" = true)]
    rw [max_eq_right (by norm_num : (20 : ℚ) ≤ 75),
      min_eq_right (by norm_num : (75 : ℚ) ≤ 100),
      max_eq_right (by norm_num : (10 : ℚ) ≤ 75)]
  exact ⟨by decide, hraw, hscore, by rw [hscore]; norm_num⟩

/-- Claim C9 (corrected): the floor part holds as stated — a "block" or
"reject" phrase turns the adjustment into `max s 75`, which never lowers the
computed score and forces at least 75.  The "approve"/"low risk" ceiling
`min s 30` applies only when no earlier branch of the `elif` chain fired
(no "block"/"reject", no non-negated "high risk", no "medium risk"); when it
applies it never raises a lower score.  The final fallback score always lies
between the fixed minimum 10 and 100. -/
theorem C9_floor_ceiling (text : String) (s : ℚ) :
    ((containsStr (lowerStr text) "block" = true ∨ containsStr (lowerStr text) "reject" = true) →
      recommendation_adjust_obs text s = max s 75
      ∧ s ≤ recommendation_adjust_obs text s
      ∧ 75 ≤ recommendation_adjust_obs text s)
    ∧ (containsStr (lowerStr text) "block" = false →
       containsStr (lowerStr text) "reject" = false →
       (containsStr (lowerStr text) "high risk"
         && !(anyContains (lowerStr text) ["not high risk", "no high risk"])) = false →
       containsStr (lowerStr text) "medium risk" = false →
       (containsStr (lowerStr text) "low risk" = true
         ∨ containsStr (lowerStr text) "approve" = true) →
      recommendation_adjust_obs text s = min s 30
      ∧ recommendation_adjust_obs text s ≤ s
      ∧ recommendation_adjust_obs text s ≤ 30)
    ∧ 10 ≤ fallback_score_obs text
    ∧ fallback_score_obs text ≤ 100 := by
  refine ⟨?_, ?_, le_max_left 10 _, max_le (by norm_num) (min_le_left 100 _)⟩
  · intro h
    have hcond : (containsStr (lowerStr text) "block"
        || containsStr (lowerStr text) "reject") = true := by
      rcases h with h | h <;> simp [h]
    unfold recommendation_adjust_obs
    rw [if_pos hcond]
    exact ⟨rfl, le_max_left s 75, le_max_right s 75⟩
  · intro h1 h2 h3 h4 h5
    have hcond5 : (containsStr (lowerStr text) "low risk"
        || containsStr (lowerStr text) "approve") = true := by
      rcases h5 with h | h <;> simp [h]
    unfold recommendation_adjust_obs
    rw [if_neg (by simp [h1, h2]), if_neg (by simp [h3]), if_neg (by simp [h4]),
      if_pos hcond5]
    exact ⟨rfl, min_le_left s 30, min_le_right s 30⟩

/-- Claim C9, witness: the corrected statement instantiated on concrete
narratives, exercising the floor on "please block this" at score 20 and the
ceiling on "approve this" at score 20, plus the clamp bounds. -/
theorem C9_witness :
    recommendation_adjust_obs "please block this" 20 = max 20 75
    ∧ recommendation_adjust_obs "approve this" 20 = min 20 30
    ∧ 10 ≤ fallback_score_obs "approve this"
    ∧ fallback_score_obs "approve this" ≤ 100 :=
  ⟨((C9_floor_ceiling "please block this" 20).1 (Or.inl (by decide))).1,
   ((C9_floor_ceiling "approve this" 20).2.1 (by decide) (by decide) (by decide) (by decide)
      (Or.inr (by decide))).1,
   (C9_floor_ceiling "approve this" 20).2.2.1,
   (C9_floor_ceiling "approve this" 20).2.2.2⟩

/-! ## Audit derivations over parsed elements
`generate_audit_report_from_risk_analysis` consumes the parsed risk score
and factor list; its `compliance_status` block is embedded field-wise, one
conditional expression per imperative flag update. -/

/-- The `compliance_status` block of an audit report. -/
structure ComplianceStatus where
  compliance_rating : String
  requires_immediate_action : Bool
  requires_enhanced_monitoring : Bool
  requires_regulatory_filing : Bool
deriving DecidableEq

/-- `generate_audit_report_from_risk_analysis` of
`src/challenge-2/agents/sequential_workflow_chal2.py` (lines 301-329), as a
function of the parsed risk score and factor list: score bands at 75 and 50
set the rating and one flag; `HIGH_RISK_JURISDICTION` sets the regulatory
filing flag; `SANCTIONS_CONCERN` sets the immediate-action flag. -/
def audit_status_chal2 (risk_score : ℚ) (risk_factors : List String) : ComplianceStatus :=
  { compliance_rating :=
      if 75 ≤ risk_score then "NON_COMPLIANT"
      else if 50 ≤ risk_score then "CONDITIONAL_COMPLIANCE"
      else "COMPLIANT"
    requires_immediate_action :=
      decide (75 ≤ risk_score) || risk_factors.contains "SANCTIONS_CONCERN"
    requires_enhanced_monitoring :=
      (!(decide (75 ≤ risk_score))) && decide (50 ≤ risk_score)
    requires_regulatory_filing := risk_factors.contains "HIGH_RISK_JURISDICTION" }

/-- `generate_audit_report_from_risk_analysis` of
`src/challenge-1/orchestration/tools/compliance_audit_tools.py`
(lines 126-177): same structure, but the NON_COMPLIANT band starts at 80,
and both `SUSPICIOUS_PATTERN` and `SANCTIONS_CONCERN` set the
immediate-action flag. -/
def audit_status_tools (risk_score : ℚ) (risk_factors : List String) : ComplianceStatus :=
  { compliance_rating :=
      if 80 ≤ risk_score then "NON_COMPLIANT"
      else if 50 ≤ risk_score then "CONDITIONAL_COMPLIANCE"
      else "COMPLIANT"
    requires_immediate_action :=
      decide (80 ≤ risk_score) || risk_factors.contains "SUSPICIOUS_PATTERN"
        || risk_factors.contains "SANCTIONS_CONCERN"
    requires_enhanced_monitoring :=
      (!(decide (80 ≤ risk_score))) && decide (50 ≤ risk_score)
    requires_regulatory_filing := risk_factors.contains "HIGH_RISK_JURISDICTION" }

/-! ## Claim C3 -/

/-- Claim C3, counterexample: the challenge-1 audit derivation (one of the
two cited implementations) maps score 75 to CONDITIONAL_COMPLIANCE, not to
NON_COMPLIANT as the claim demands for every score at least 75. -/
theorem C3_counterexample :
    (audit_status_tools 75 []).compliance_rating = "CONDITIONAL_COMPLIANCE"
    ∧ ¬ ((audit_status_tools 75 []).compliance_rating = "NON_COMPLIANT") := by
  decide

/-- Claim C3 (corrected): the claimed bands hold exactly for the
challenge-2/3 derivation (NON_COMPLIANT from 75, CONDITIONAL_COMPLIANCE
with enhanced monitoring on `[50, 75)`, COMPLIANT below 50); the challenge-1
orchestration derivation has the same shape but starts NON_COMPLIANT at 80
instead of 75. -/
theorem C3_rating_bands (score : ℚ) (factors : List String) :
    ((75 ≤ score →
        (audit_status_chal2 score factors).compliance_rating = "NON_COMPLIANT"
        ∧ (audit_status_chal2 score factors).requires_immediate_action = true)
     ∧ (50 ≤ score → score < 75 →
        (audit_status_chal2 score factors).compliance_rating = "CONDITIONAL_COMPLIANCE"
        ∧ (audit_status_chal2 score factors).requires_enhanced_monitoring = true)
     ∧ (score < 50 →
        (audit_status_chal2 score factors).compliance_rating = "COMPLIANT"))
    ∧ ((80 ≤ score →
        (audit_status_tools score factors).compliance_rating = "NON_COMPLIANT"
        ∧ (audit_status_tools score factors).requires_immediate_action = true)
     ∧ (50 ≤ score → score < 80 →
        (audit_status_tools score factors).compliance_rating = "CONDITIONAL_COMPLIANCE"
        ∧ (audit_status_tools score factors).requires_enhanced_monitoring = true)
     ∧ (score < 80 → score < 50 →
        (audit_status_tools score factors).compliance_rating = "COMPLIANT")) := by
  constructor
  · refine ⟨fun h75 => ?_, fun h50 h75 => ?_, fun h50 => ?_⟩
    · simp [audit_status_chal2, h75]
    · simp [audit_status_chal2, h50, not_le.mpr h75]
    · have h75 : ¬ (75 ≤ score) := not_le.mpr (lt_of_lt_of_le h50 (by norm_num : (50:ℚ) ≤ 75))
      simp [audit_status_chal2, not_le.mpr h50, h75]
  · refine ⟨fun h80 => ?_, fun h50 h80 => ?_, fun _ h50 => ?_⟩
    · simp [audit_status_tools, h80]
    · simp [audit_status_tools, h50, not_le.mpr h80]
    · have h80 : ¬ (80 ≤ score) := not_le.mpr (lt_of_lt_of_le h50 (by norm_num : (50:ℚ) ≤ 80))
      simp [audit_status_tools, not_le.mpr h50, h80]

/-- Claim C3, witness: the corrected statement instantiated at scores 80, 60
and 10 with an empty factor list. -/
theorem C3_witness :
    (audit_status_chal2 80 []).compliance_rating = "NON_COMPLIANT"
    ∧ (audit_status_tools 80 []).compliance_rating = "NON_COMPLIANT"
    ∧ (audit_status_chal2 60 []).compliance_rating = "CONDITIONAL_COMPLIANCE"
    ∧ (audit_status_chal2 10 []).compliance_rating = "COMPLIANT" :=
  ⟨((C3_rating_bands 80 []).1.1 (by norm_num)).1,
   ((C3_rating_bands 80 []).2.1 (by norm_num)).1,
   ((C3_rating_bands 60 []).1.2.1 (by norm_num) (by norm_num)).1,
   (C3_rating_bands 10 []).1.2.2 (by norm_num)⟩

/-! ## Claim C4 -/

/-- Claim C4, counterexample: a factor set containing only the
sanctions-labeled factor does not set `requires_regulatory_filing` (in
either cited derivation), refuting the claim that a sanctions factor forces
a regulatory filing. -/
theorem C4_counterexample :
    (["SANCTIONS_CONCERN"].contains "SANCTIONS_CONCERN") = true
    ∧ (audit_status_chal2 0 ["SANCTIONS_CONCERN"]).requires_regulatory_filing = false
    ∧ (audit_status_tools 0 ["SANCTIONS_CONCERN"]).requires_regulatory_filing = false := by
  decide

/-- Claim C4 (corrected): in both cited derivations
`requires_regulatory_filing` is set exactly when `HIGH_RISK_JURISDICTION`
is present, independent of the score band; a `SANCTIONS_CONCERN` factor
instead forces `requires_immediate_action`, likewise independent of the
score band. -/
theorem C4_regulatory_filing (score : ℚ) (factors : List String) :
    (audit_status_chal2 score factors).requires_regulatory_filing
      = factors.contains "HIGH_RISK_JURISDICTION"
    ∧ (audit_status_tools score factors).requires_regulatory_filing
      = factors.contains "HIGH_RISK_JURISDICTION"
    ∧ (factors.contains "SANCTIONS_CONCERN" = true →
        (audit_status_chal2 score factors).requires_immediate_action = true
        ∧ (audit_status_tools score factors).requires_immediate_action = true) := by
  refine ⟨rfl, rfl, fun h => ?_⟩
  have hm : "SANCTIONS_CONCERN" ∈ factors := by simpa using h
  exact ⟨by simp [audit_status_chal2, hm], by simp [audit_status_tools, hm]⟩

/-- Claim C4, witness: the corrected statement instantiated at score 5 with
a jurisdiction factor and with a sanctions factor. -/
theorem C4_witness :
    (audit_status_chal2 5 ["HIGH_RISK_JURISDICTION"]).requires_regulatory_filing
      = (["HIGH_RISK_JURISDICTION"].contains "HIGH_RISK_JURISDICTION")
    ∧ (audit_status_chal2 5 ["SANCTIONS_CONCERN"]).requires_immediate_action = true :=
  ⟨(C4_regulatory_filing 5 ["HIGH_RISK_JURISDICTION"]).1,
   ((C4_regulatory_filing 5 ["SANCTIONS_CONCERN"]).2.2 (by decide)).1⟩

/-! ## Challenge-3 audit report generation
`generate_audit_report_from_risk_analysis` of
`src/challenge-3/workflow_observability.py` (lines 271-383): it first runs
`parse_risk_analysis_result` on the narrative, then scans the uppercased
narrative for descriptive findings and the compliance rating.  The
timestamped report id and the numeric-score regex are not modelled; the
parsed factor list kept under `source_analysis.parsed_elements` is. -/

/-- The deterministic content of a challenge-3 audit report. -/
structure AuditReport3 where
  risk_factors_identified : List String
  compliance_concerns : List String
  compliance_rating : String
  requires_immediate_action : Bool
  requires_regulatory_filing : Bool
  recommendations : List String
  parsed_factors : List String
deriving DecidableEq

/-- `generate_audit_report_from_risk_analysis`
(workflow_observability.py lines 271-383). -/
def generate_audit_report_obs (risk_analysis_text : String) : AuditReport3 :=
  let u := upperStr risk_analysis_text
  let risk_factors :=
    tagIf (containsStr u "HIGH RISK" || containsStr u "SUSPICIOUS")
      "High risk transaction pattern detected"
    ++ tagIf (containsStr u "SANCTIONS" || containsStr u "BLACKLIST")
      "Potential sanctions list match"
    ++ tagIf (containsStr u "FRAUD") "Fraud indicators present"
    ++ tagIf (containsStr u "AML" || containsStr u "MONEY LAUNDERING")
      "Anti-Money Laundering concerns"
  let compliance_concerns :=
    tagIf (containsStr u "REGULATORY" || containsStr u "COMPLIANCE")
      "Regulatory compliance review required"
    ++ tagIf (containsStr u "KYC" || containsStr u "KNOW YOUR CUSTOMER")
      "KYC verification needed"
    ++ tagIf (containsStr u "INVESTIGATION") "Further investigation recommended"
  let rating :=
    if containsStr u "BLOCK" || containsStr u "REJECT" then "NON_COMPLIANT"
    else if containsStr u "APPROVE" && risk_factors.isEmpty then "COMPLIANT"
    else "REVIEW_REQUIRED"
  let requires_immediate_action :=
    if containsStr u "BLOCK" || containsStr u "REJECT" then true
    else if containsStr u "APPROVE" && risk_factors.isEmpty then false
    else !risk_factors.isEmpty
  let requires_regulatory_filing :=
    if containsStr u "BLOCK" || containsStr u "REJECT" then true
    else if containsStr u "APPROVE" && risk_factors.isEmpty then false
    else containsStr u "SANCTIONS"
  let recommendations :=
    (if requires_immediate_action then
      ["Immediate transaction review required",
       "Enhanced due diligence procedures",
       "Supervisor approval mandatory"] else [])
    ++ (if requires_regulatory_filing then
      ["File Suspicious Activity Report (SAR)",
       "Notify relevant regulatory authorities",
       "Maintain detailed transaction records"] else [])
    ++ (if rating = "REVIEW_REQUIRED" then
      ["Schedule compliance review meeting",
       "Additional customer verification",
       "Monitor for pattern analysis"] else [])
    ++ (if !risk_factors.isEmpty then
      ["Place customer on enhanced monitoring list",
       "Review transaction against internal risk policies"]
     else ["Continue standard monitoring procedures"])
  { risk_factors_identified := risk_factors
    compliance_concerns := compliance_concerns
    compliance_rating := rating
    requires_immediate_action := requires_immediate_action
    requires_regulatory_filing := requires_regulatory_filing
    recommendations := recommendations
    parsed_factors := parse_risk_factors_obs risk_analysis_text }

/-- The factor set computed at the Risk Scoring call site: the challenge-3
`risk_analyzer_executor` (workflow_observability.py lines 689-698) calls
`parse_risk_analysis_result` on the narrative it received. -/
def risk_scoring_parsed_factors (narrative : String) : List String :=
  parse_risk_factors_obs narrative

/-- The factor set computed at the Compliance Audit call site: the
challenge-3 `compliance_report_executor` (workflow_observability.py line
866) calls `generate_audit_report_from_risk_analysis`, which invokes
`parse_risk_analysis_result` on the same narrative (line 276) and records
the result under `parsed_elements`. -/
def audit_parsed_factors (narrative : String) : List String :=
  (generate_audit_report_obs narrative).parsed_factors

/-! ## Claim C5 -/

/-- Claim C5 (confirmed): in the challenge-3 workflow both call sites invoke
the identical parsing function, so for every narrative the factor set used
by the Risk Scoring stage equals the factor set recorded by the Compliance
Audit stage — the audit report and the risk assessment can never disagree
on the parsed factors of the same narrative. -/
theorem C5_shared_parse_call_sites (narrative : String) :
    risk_scoring_parsed_factors narrative = audit_parsed_factors narrative := rfl

/-- Claim C5, witness: the shared-parser equality instantiated on a concrete
narrative. -/
theorem C5_witness :
    risk_scoring_parsed_factors "suspicious transfer to a high risk country"
      = audit_parsed_factors "suspicious transfer to a high risk country" :=
  C5_shared_parse_call_sites "suspicious transfer to a high risk country"

/-! ## Challenge-3 workflow graph
`src/challenge-3/workflow_observability.py`.  The Cosmos DB lookups become a
`Store` of partial maps (`none` models the `{"error": ...}` dict returned
when a document is absent).  Each executor becomes a function returning
`Option` of its outgoing message: `some` models a `ctx.send_message` /
`ctx.yield_output` call, and every code path of every executor performs one,
including the error paths.  The remote AI agent and MCP collaborators called
inside the risk, compliance and alert executors are modelled as
`Except String String` oracles: `Except.error` models the `except` branch
(configuration error, remote failure or timeout), `Except.ok` carries the
collaborator response text. -/

/-- The transaction-document fields the workflow reads. -/
structure TxRecord where
  customer_id : String
  amount : ℚ
  destination_country : String
deriving DecidableEq

/-- The customer-document fields the workflow reads. -/
structure CustRecord where
  account_age_days : ℤ
  device_trust_score : ℚ
  past_fraud : Bool
deriving DecidableEq

/-- The external data store (transactions and customers containers). -/
structure Store where
  transactions : String → Option TxRecord
  customers : String → Option CustRecord

/-- `get_transaction_data` (workflow_observability.py lines 127-139):
`none` models the `{"error": ...}` not-found dict. -/
def get_transaction_data (store : Store) (transaction_id : String) : Option TxRecord :=
  store.transactions transaction_id

/-- `get_customer_data` (lines 142-154). -/
def get_customer_data (store : Store) (customer_id : String) : Option CustRecord :=
  store.customers customer_id

/-- Python `customer_data.get("account_age_days", 0)`: the error dict from a
failed lookup has no such key, so the default 0 applies. -/
def cust_account_age_days : Option CustRecord → ℤ
  | some c => c.account_age_days
  | none => 0

/-- Python `customer_data.get("device_trust_score", 1.0)`. -/
def cust_device_trust_score : Option CustRecord → ℚ
  | some c => c.device_trust_score
  | none => 1

/-- Python `customer_data.get("past_fraud", False)`. -/
def cust_past_fraud : Option CustRecord → Bool
  | some c => c.past_fraud
  | none => false

/-- The five fraud risk indicator flags derived by `customer_data_executor`
(workflow_observability.py lines 493-507). -/
structure FraudIndicators where
  high_amount : Bool
  high_risk_country : Bool
  new_account : Bool
  low_device_trust : Bool
  past_fraud : Bool
deriving DecidableEq

/-- The flag derivation of `customer_data_executor` (lines 494-498):
`amount > 10000`, destination in `["IR", "RU", "NG", "KP"]`,
`account_age_days < 30`, `device_trust_score < 0.5`, `past_fraud`. -/
def fraud_indicators_obs (tx : TxRecord) (cust : Option CustRecord) : FraudIndicators :=
  { high_amount := decide (10000 < tx.amount)
    high_risk_country := ["IR", "RU", "NG", "KP"].contains tx.destination_country
    new_account := decide (cust_account_age_days cust < 30)
    low_device_trust := decide (cust_device_trust_score cust < 1/2)
    past_fraud := cust_past_fraud cust }

/-- The data-bearing content of a `CustomerDataResponse`. -/
structure CustomerDataMsg where
  status : String
  transaction_id : String
  raw_transaction : Option TxRecord
  raw_customer : Option CustRecord
  indicators : Option FraudIndicators
deriving DecidableEq

/-- `customer_data_executor` (lines 386-567): a failed transaction lookup
produces an ERROR-status response, a found transaction a SUCCESS-status
response with the derived indicators; **both** paths call
`ctx.send_message`, hence both return `some`. -/
def customer_data_executor_obs (store : Store) (transaction_id : String) :
    Option CustomerDataMsg :=
  match get_transaction_data store transaction_id with
  | none => some
      { status := "ERROR", transaction_id := transaction_id,
        raw_transaction := none, raw_customer := none, indicators := none }
  | some tx =>
      let cust := get_customer_data store tx.customer_id
      some
        { status := "SUCCESS", transaction_id := transaction_id,
          raw_transaction := some tx, raw_customer := cust,
          indicators := some (fraud_indicators_obs tx cust) }

/-- The data-bearing content of a `RiskAnalysisResponse`. -/
structure RiskMsg where
  risk_analysis : String
  status : String
  recommendation : String
  risk_factors : List String
  transaction_id : String
deriving DecidableEq

/-- The recommendation keyword scan of `risk_analyzer_executor`
(lines 680-684), on the uppercased AI response. -/
def risk_recommendation_obs (result_text : String) : String :=
  let u := upperStr result_text
  if containsStr u "HIGH RISK" || containsStr u "BLOCK" then "BLOCK"
  else if containsStr u "LOW RISK" || containsStr u "APPROVE" then "APPROVE"
  else "INVESTIGATE"

/-- `risk_analyzer_executor` (lines 569-770): the AI oracle failure path
sends an ERROR-status response (lines 759-770, with the default empty
recommendation and factor list); the success path sends the AI narrative
with the keyword-derived recommendation and factor list.  The executor does
not inspect the incoming status, and every path sends a message. -/
def risk_analyzer_executor_obs (oracle : Except String String)
    (cd : CustomerDataMsg) : Option RiskMsg :=
  match oracle with
  | Except.error e => some
      { risk_analysis := "Error in risk analysis: " ++ e, status := "ERROR",
        recommendation := "", risk_factors := [],
        transaction_id := cd.transaction_id }
  | Except.ok result_text => some
      { risk_analysis := result_text, status := "SUCCESS",
        recommendation := risk_recommendation_obs result_text,
        risk_factors := tagIf (containsStr (upperStr result_text) "HIGH RISK"
            || containsStr (upperStr result_text) "BLOCK")
          "High risk transaction identified",
        transaction_id := cd.transaction_id }

/-- The data-bearing content of a `ComplianceAuditResponse`. -/
structure ComplianceMsg where
  status : String
  compliance_rating : String
  requires_immediate_action : Bool
  requires_regulatory_filing : Bool
  recommendations : List String
  transaction_id : String
deriving DecidableEq

/-- `compliance_report_executor` (lines 772-939): on AI-oracle failure it
yields an ERROR-status report (lines 926-939); on success it yields the
locally generated audit derived from the *risk narrative* it received. -/
def compliance_report_executor_obs (oracle : Except String String)
    (r : RiskMsg) : ComplianceMsg :=
  match oracle with
  | Except.error _ =>
      { status := "ERROR", compliance_rating := "ERROR",
        requires_immediate_action := false, requires_regulatory_filing := false,
        recommendations := [], transaction_id := r.transaction_id }
  | Except.ok _ =>
      let audit := generate_audit_report_obs r.risk_analysis
      { status := "SUCCESS", compliance_rating := audit.compliance_rating,
        requires_immediate_action := audit.requires_immediate_action,
        requires_regulatory_filing := audit.requires_regulatory_filing,
        recommendations := audit.recommendations,
        transaction_id := r.transaction_id }

/-- The data-bearing content of a `FraudAlertResponse`. -/
structure AlertMsg where
  status : String
  alert_created : Bool
  alert_status : String
  severity : String
  decision_action : String
  transaction_id : String
deriving DecidableEq

/-- `fraud_alert_executor` (lines 941-1235): on MCP-agent failure it yields
an ERROR-status alert record (lines 1217-1235); on success it scans the
agent response (lines 1142-1178) for alert creation, severity and decision
keywords, with defaults LOW / MONITOR / no alert. -/
def fraud_alert_executor_obs (oracle : Except String String)
    (r : RiskMsg) : AlertMsg :=
  match oracle with
  | Except.error _ =>
      { status := "ERROR", alert_created := false, alert_status := "ERROR",
        severity := "UNKNOWN", decision_action := "ERROR",
        transaction_id := r.transaction_id }
  | Except.ok agent_response =>
      let u := upperStr agent_response
      let created := anyContains (lowerStr agent_response)
        ["alert created", "createalert", "alert id", "fraud alert"]
      { status := "SUCCESS", alert_created := created,
        alert_status := if created then "OPEN" else "NO_ACTION_REQUIRED",
        severity :=
          if containsStr u "HIGH" then "HIGH"
          else if containsStr u "CRITICAL" then "CRITICAL"
          else if containsStr u "MEDIUM" then "MEDIUM"
          else "LOW",
        decision_action :=
          if containsStr u "BLOCK" then "BLOCK"
          else if containsStr u "INVESTIGATE" then "INVESTIGATE"
          else if containsStr u "ALLOW" then "ALLOW"
          else "MONITOR",
        transaction_id := r.transaction_id }

/-- A terminal output of one of the two sink branches. -/
inductive BranchOutput where
  | compliance (msg : ComplianceMsg) : BranchOutput
  | alert (msg : AlertMsg) : BranchOutput
deriving DecidableEq

/-- `run_fraud_detection_workflow` (lines 1237-1309) over the graph
`customer_data -> risk_analyzer -> {compliance_report, fraud_alert}`
(builder lines 1248-1255): each stage runs when its upstream stage emitted
a message, and the collected outputs are the two sink yields. -/
def run_fraud_detection_workflow_obs (store : Store) (transaction_id : String)
    (risk_oracle audit_oracle alert_oracle : Except String String) :
    List BranchOutput :=
  match customer_data_executor_obs store transaction_id with
  | none => []
  | some cd =>
      match risk_analyzer_executor_obs risk_oracle cd with
      | none => []
      | some r =>
          [BranchOutput.compliance (compliance_report_executor_obs audit_oracle r),
           BranchOutput.alert (fraud_alert_executor_obs alert_oracle r)]

/-- The stages invoked during a run: a stage is invoked exactly when its
upstream stage emitted a message to it (the start executor always runs). -/
def invoked_stages_obs (store : Store) (transaction_id : String)
    (risk_oracle : Except String String) : List String :=
  "customer_data" ::
    match customer_data_executor_obs store transaction_id with
    | none => []
    | some cd =>
        "risk_analyzer" ::
          match risk_analyzer_executor_obs risk_oracle cd with
          | none => []
          | some _ => ["compliance_report", "fraud_alert"]

/-- A store with no documents at all. -/
def empty_store : Store :=
  { transactions := fun _ => none, customers := fun _ => none }

/-! ## Claim C6 -/

/-- Claim C6, counterexample: with the transaction absent the workflow does
not abort — the lookup fails, yet both the Compliance Audit and the Fraud
Alert stages are still invoked and the run produces branch outputs. -/
theorem C6_counterexample :
    get_transaction_data empty_store "TX404" = none
    ∧ "compliance_report" ∈ invoked_stages_obs empty_store "TX404" (Except.ok "analysis")
    ∧ "fraud_alert" ∈ invoked_stages_obs empty_store "TX404" (Except.ok "analysis")
    ∧ run_fraud_detection_workflow_obs empty_store "TX404"
        (Except.ok "analysis") (Except.ok "report") (Except.ok "alert") ≠ [] := by
  refine ⟨rfl, by decide, by decide, by decide⟩

/-- Claim C6 (corrected): when the transaction lookup returns not-found, the
Data stage does not abort the workflow; it sends an ERROR-status
`CustomerDataResponse` downstream, the Risk stage (which never inspects the
incoming status) still runs, both sink stages are still invoked, and the
run still yields two branch outputs — the failure travels as data, not as a
single upstream-fatal abort. -/
theorem C6_not_found_propagates (store : Store) (transaction_id : String)
    (risk_oracle audit_oracle alert_oracle : Except String String)
    (h : get_transaction_data store transaction_id = none) :
    customer_data_executor_obs store transaction_id
      = some { status := "ERROR", transaction_id := transaction_id,
               raw_transaction := none, raw_customer := none, indicators := none }
    ∧ invoked_stages_obs store transaction_id risk_oracle
      = ["customer_data", "risk_analyzer", "compliance_report", "fraud_alert"]
    ∧ (run_fraud_detection_workflow_obs store transaction_id
        risk_oracle audit_oracle alert_oracle).length = 2 := by
  have hcd : customer_data_executor_obs store transaction_id
      = some { status := "ERROR", transaction_id := transaction_id,
               raw_transaction := none, raw_customer := none, indicators := none } := by
    unfold customer_data_executor_obs
    rw [h]
  refine ⟨hcd, ?_, ?_⟩
  · unfold invoked_stages_obs
    rw [hcd]
    cases risk_oracle <;> rfl
  · unfold run_fraud_detection_workflow_obs
    rw [hcd]
    cases risk_oracle <;> rfl

/-- Claim C6, witness: the corrected statement on the empty store, with the
risk oracle itself failing as well. -/
theorem C6_witness :
    customer_data_executor_obs empty_store "TX999"
      = some { status := "ERROR", transaction_id := "TX999",
               raw_transaction := none, raw_customer := none, indicators := none }
    ∧ invoked_stages_obs empty_store "TX999" (Except.error "no agent")
      = ["customer_data", "risk_analyzer", "compliance_report", "fraud_alert"]
    ∧ (run_fraud_detection_workflow_obs empty_store "TX999"
        (Except.error "no agent") (Except.ok "x") (Except.ok "y")).length = 2 :=
  C6_not_found_propagates empty_store "TX999"
    (Except.error "no agent") (Except.ok "x") (Except.ok "y") rfl

/-! ## Claim C7 -/

/-- Claim C7 (confirmed): whenever the Risk Scoring stage emitted its
message, the run yields exactly two branch results — one compliance, one
alert, in that order, never zero and never more than two; a failing alert
oracle makes the alert branch an ERROR record while the compliance branch
is computed from its own oracle alone, so the successful sibling output is
returned alongside the failed branch (the head of the run is the compliance
output whatever the alert oracle does). -/
theorem C7_fanout_two_branches (store : Store) (transaction_id : String)
    (risk_oracle audit_oracle alert_oracle other_alert_oracle : Except String String)
    (cd : CustomerDataMsg) (r : RiskMsg)
    (h1 : customer_data_executor_obs store transaction_id = some cd)
    (h2 : risk_analyzer_executor_obs risk_oracle cd = some r) :
    run_fraud_detection_workflow_obs store transaction_id
        risk_oracle audit_oracle alert_oracle
      = [BranchOutput.compliance (compliance_report_executor_obs audit_oracle r),
         BranchOutput.alert (fraud_alert_executor_obs alert_oracle r)]
    ∧ (run_fraud_detection_workflow_obs store transaction_id
        risk_oracle audit_oracle alert_oracle).length = 2
    ∧ (∀ e, alert_oracle = Except.error e →
        (fraud_alert_executor_obs alert_oracle r).status = "ERROR")
    ∧ (run_fraud_detection_workflow_obs store transaction_id
        risk_oracle audit_oracle other_alert_oracle).head?
      = some (BranchOutput.compliance (compliance_report_executor_obs audit_oracle r)) := by
  have hrun : ∀ o : Except String String,
      run_fraud_detection_workflow_obs store transaction_id risk_oracle audit_oracle o
        = [BranchOutput.compliance (compliance_report_executor_obs audit_oracle r),
           BranchOutput.alert (fraud_alert_executor_obs o r)] := by
    intro o
    simp [run_fraud_detection_workflow_obs, h1, h2]
  refine ⟨hrun alert_oracle, by rw [hrun alert_oracle]; rfl, ?_, by rw [hrun other_alert_oracle]; rfl⟩
  rintro e rfl
  rfl

/-- A benign transaction and customer used to exercise the fan-out. -/
def txB : TxRecord := { customer_id := "CUSTB", amount := 500, destination_country := "DE" }

/-- The customer owning `txB`. -/
def custB : CustRecord := { account_age_days := 400, device_trust_score := 1, past_fraud := false }

/-- A store containing exactly `txB` and `custB`. -/
def store_ok : Store :=
  { transactions := fun i => if i = "TXB" then some txB else none
    customers := fun i => if i = "CUSTB" then some custB else none }

/-- The customer-data message the workflow derives for `txB` in `store_ok`. -/
def cdB : CustomerDataMsg :=
  { status := "SUCCESS", transaction_id := "TXB", raw_transaction := some txB,
    raw_customer := some custB, indicators := some (fraud_indicators_obs txB (some custB)) }

/-- The risk message produced from `cdB` when the AI replies
"routine analysis". -/
def rB : RiskMsg :=
  { risk_analysis := "routine analysis", status := "SUCCESS",
    recommendation := risk_recommendation_obs "routine analysis",
    risk_factors := tagIf (containsStr (upperStr "routine analysis") "HIGH RISK"
        || containsStr (upperStr "routine analysis") "BLOCK")
      "High risk transaction identified",
    transaction_id := "TXB" }

/-- Claim C7, witness: a concrete run in which risk scoring succeeded and
the alert dispatch oracle fails: the run still has exactly two outputs, the
alert branch carries the error, and the head is the successful compliance
output. -/
theorem C7_witness :
    (run_fraud_detection_workflow_obs store_ok "TXB" (Except.ok "routine analysis")
        (Except.ok "audit prose") (Except.error "dispatch timeout")).length = 2
    ∧ (fraud_alert_executor_obs (Except.error "dispatch timeout") rB).status = "ERROR"
    ∧ (run_fraud_detection_workflow_obs store_ok "TXB" (Except.ok "routine analysis")
        (Except.ok "audit prose") (Except.error "dispatch timeout")).head?
      = some (BranchOutput.compliance
          (compliance_report_executor_obs (Except.ok "audit prose") rB)) :=
  have h := C7_fanout_two_branches store_ok "TXB" (Except.ok "routine analysis")
    (Except.ok "audit prose") (Except.error "dispatch timeout")
    (Except.error "dispatch timeout") cdB rB rfl rfl
  ⟨h.2.1, h.2.2.1 "dispatch timeout" rfl, h.2.2.2⟩

/-! ## Claim C10 -/

/-- Claim C10 (confirmed): when the transaction is found but the customer
lookup fails, the Data Enrichment stage still proceeds with a SUCCESS
response, and the hard-coded `dict.get` defaults make an absent customer
look like a brand-new account (`account_age_days` defaults to 0, so
`new_account` is true) on a fully trusted device (`device_trust_score`
defaults to 1.0, so `low_device_trust` is false) with no fraud history
(`past_fraud` defaults to false). -/
theorem C10_missing_customer_defaults (store : Store) (transaction_id : String)
    (tx : TxRecord)
    (h1 : get_transaction_data store transaction_id = some tx)
    (h2 : get_customer_data store tx.customer_id = none) :
    customer_data_executor_obs store transaction_id
      = some { status := "SUCCESS", transaction_id := transaction_id,
               raw_transaction := some tx, raw_customer := none,
               indicators := some (fraud_indicators_obs tx none) }
    ∧ (fraud_indicators_obs tx none).new_account = true
    ∧ (fraud_indicators_obs tx none).low_device_trust = false
    ∧ (fraud_indicators_obs tx none).past_fraud = false := by
  refine ⟨?_, ?_, ?_, rfl⟩
  · simp [customer_data_executor_obs, h1, h2]
  · simp [fraud_indicators_obs, cust_account_age_days]
  · simp [fraud_indicators_obs, cust_device_trust_score, decide_eq_false_iff_not]
    norm_num

/-- A transaction whose owning customer is absent from the store. -/
def tx_orphan : TxRecord := { customer_id := "CUSTX", amount := 2500, destination_country := "FR" }

/-- A store containing `tx_orphan` but no customer documents. -/
def store_missing_customer : Store :=
  { transactions := fun i => if i = "TXA" then some tx_orphan else none
    customers := fun _ => none }

/-- Claim C10, witness: the defaults property on the concrete store with the
orphaned transaction. -/
theorem C10_witness :
    customer_data_executor_obs store_missing_customer "TXA"
      = some { status := "SUCCESS", transaction_id := "TXA",
               raw_transaction := some tx_orphan, raw_customer := none,
               indicators := some (fraud_indicators_obs tx_orphan none) }
    ∧ (fraud_indicators_obs tx_orphan none).new_account = true
    ∧ (fraud_indicators_obs tx_orphan none).low_device_trust = false :=
  have h := C10_missing_customer_defaults store_missing_customer "TXA" tx_orphan rfl rfl
  ⟨h.1, h.2.1, h.2.2.1⟩

end AzureTrustAgents
